import Mathlib

/-!
# LogixFleet permission gating — verification

A shallow embedding of the permission-gating contract of the LogixFleet
dashboard (the `PermissionGate` / `RestrictedButton` / `usePermissions`
trio) together with three helper routines that live in the examined
components (`getInitials`, `handleDeleteUser`, the edit-user form flow).

The resolver, gate and restricted-button components themselves are not
among the examined source files — only their call sites are — so those
three are modelled from the specification (each such definition says so
in its doc comment).  Everything else is translated directly from the
component sources.
-/

namespace LogixFleet

/-- The resource types protected by the dashboard; a closed set per the
spec's data model (User, Driver, Vehicle, Issue). -/
inductive DocType where
  | user
  | driver
  | vehicle
  | issue
deriving DecidableEq

/-- The CRUD-style actions being authorized; a closed set per the spec's
data model (read, create, write, delete). -/
inductive PermAction where
  | read
  | create
  | write
  | delete
deriving DecidableEq

/-- Modelled from the spec: recognition of the resource-type tag handed to
the resolver as a string by call sites such as
`PermissionGate docType="Driver"`.  An unrecognized tag yields `none`. -/
def parseDocType : String → Option DocType
  | "User" => some DocType.user
  | "Driver" => some DocType.driver
  | "Vehicle" => some DocType.vehicle
  | "Issue" => some DocType.issue
  | _ => none

/-- Modelled from the spec: recognition of the action tag handed to the
resolver as a string by call sites such as `permission="read"`.  An
unrecognized tag yields `none`. -/
def parsePermAction : String → Option PermAction
  | "read" => some PermAction.read
  | "create" => some PermAction.create
  | "write" => some PermAction.write
  | "delete" => some PermAction.delete
  | _ => none

/-- Modelled from the spec: the session/identity — an opaque identifier
for the acting user, an authenticated flag, and a flattened set of granted
(resource-type, action) pairs. -/
structure Session where
  userId : String
  authenticated : Bool
  grants : List (DocType × PermAction)
deriving DecidableEq

/-- Modelled from the spec: the Permission Resolver (the `usePermissions`
hook, which is not among the examined sources).  Given the current
session context (absent when unauthenticated contexts are torn down) and
the string tags of a (resource type, action) pair, it answers allow/deny:
default-deny on absent or unauthenticated context, on an unrecognized
resource type or action, and on any pair not in the session's grants. -/
def hasPermission (ctx : Option Session) (docType permission : String) : Bool :=
  match ctx with
  | none => false
  | some s =>
    if s.authenticated then
      match parseDocType docType, parsePermAction permission with
      | some d, some a => s.grants.contains (d, a)
      | _, _ => false
    else false

/-- What a Permission Gate renders: the protected children, the supplied
fallback node, a passive denial indicator, or nothing. -/
inductive GateRender where
  | content
  | fallback
  | denialNotice
  | nothing
deriving DecidableEq

/-- Modelled from the spec: the Permission Gate (the `PermissionGate`
component, not among the examined sources).  `hasFallback` records
whether the optional fallback content was supplied and `showAlert` the
denial-notice flag, matching call sites such as
`PermissionGate docType="Driver" permission="read" showAlert={true}`. -/
def permissionGate (ctx : Option Session) (docType permission : String)
    (hasFallback showAlert : Bool) : GateRender :=
  if hasPermission ctx docType permission then GateRender.content
  else if hasFallback then GateRender.fallback
  else if showAlert then GateRender.denialNotice
  else GateRender.nothing

/-- The observable outcome of one trigger of a Restricted Action: how
many times the caller-supplied handler ran, and which denial
notifications were emitted. -/
structure TriggerOutcome where
  handlerCalls : Nat
  notifications : List String
deriving DecidableEq

/-- Modelled from the spec: the generic default denial message used when a
Restricted Action is triggered without a supplied `fallbackMessage`. -/
def defaultDenialMessage : String := "Permission denied"

/-- Modelled from the spec: one trigger of a Restricted Action (the
`RestrictedButton` component, not among the examined sources).  If the
resolver allows, the handler runs exactly once; if it denies, the handler
never runs and one denial notification — the supplied message or the
generic default — is emitted exactly when `showAlert` is set. -/
def restrictedButtonTrigger (ctx : Option Session) (docType permission : String)
    (fallbackMessage : Option String) (showAlert : Bool) : TriggerOutcome :=
  if hasPermission ctx docType permission then
    { handlerCalls := 1, notifications := [] }
  else if showAlert then
    { handlerCalls := 0, notifications := [fallbackMessage.getD defaultDenialMessage] }
  else
    { handlerCalls := 0, notifications := [] }

/-- Modelled from the spec: one resolver evaluation with its state
threaded explicitly — the decision together with the session context the
evaluation leaves behind for the next check.  The spec's resolver reads
already-resident session data and mutates nothing. -/
def resolveStep (ctx : Option Session) (docType permission : String) :
    Bool × Option Session :=
  (hasPermission ctx docType permission, ctx)

/-- A row of the users table, as typed in `user-table.tsx` (the fields the
row-level logic reads). -/
structure UserRow where
  name : String
  email : String
  enabled : Nat
deriving DecidableEq

/-- A row of the drivers table, as typed in `driver-table.tsx` (the fields
the row-level logic reads). -/
structure DriverRow where
  name : String
  email : String
  status : String
deriving DecidableEq

/-- The permission decisions taken while rendering one user row's actions
menu.  Both `user-table.tsx:278-329` (Edit and Disable, each gated on
("User","write")) and the users page at `src/unnamed/part_001:413-425`
(Edit gated on ("User","write"), Delete on ("User","delete")) configure
their gates with only the doc type and permission strings; the row itself
never enters any check. -/
def userRowMenuDecisions (ctx : Option Session) (row : UserRow) :
    Bool × Bool × Bool :=
  (hasPermission ctx "User" "write",
   hasPermission ctx "User" "delete",
   row.enabled == 1)

/-- The permission decisions taken while rendering one driver row's
actions menu (`driver-table.tsx:271-322`): Edit and Disable are each
wrapped in a gate configured with ("Driver","write") only; the row enters
the rendering (the Disable/Enable label reads `driver.status`) but never
any permission check. -/
def driverRowMenuDecisions (ctx : Option Session) (row : DriverRow) :
    Bool × Bool × Bool :=
  (hasPermission ctx "Driver" "write",
   hasPermission ctx "Driver" "write",
   row.status == "Active")

/-- JS `split(" ")` on the character list of a string: fragments between
single-space separators, keeping empty fragments (so leading, trailing or
doubled spaces yield empty fragments, exactly as in JavaScript). -/
def splitSpaces : List Char → List (List Char)
  | [] => [[]]
  | c :: rest =>
    if c = ' ' then [] :: splitSpaces rest
    else
      match splitSpaces rest with
      | [] => [[c]]
      | p :: ps => (c :: p) :: ps

/-- JS template interpolation of a possibly-undefined character: indexing
`[0]` on an empty string yields `undefined`, which a template literal
renders as the text "undefined". -/
def jsInterpChar : Option Char → String
  | some c => String.singleton c
  | none => "undefined"

/-- JS `toUpperCase`, character by character. -/
def jsToUpper (s : String) : String :=
  String.mk (s.data.map Char.toUpper)

/-- Embeds `getInitials` (`src/unnamed/part_001:162-169`): empty (falsy)
name gives "U"; otherwise split on single spaces — when there are at
least two fragments, interpolate the first character of each of the first
two fragments (the text "undefined" when a fragment is empty) and
uppercase; otherwise uppercase the first two characters of the name. -/
def getInitials (name : String) : String :=
  if name = "" then "U"
  else
    let parts := splitSpaces name.data
    if 2 ≤ parts.length then
      jsToUpper (jsInterpChar (parts.getD 0 []).head? ++
        jsInterpChar (parts.getD 1 []).head?)
    else
      jsToUpper (String.mk (name.data.take 2))

/-- The claim's literal reading of `getInitials`: with at least two
fragments, "the uppercased concatenation of the first character of the
first part and the first character of the second part" — a first
character contributing nothing when its fragment is empty. -/
def getInitialsClaimed (name : String) : String :=
  if name = "" then "U"
  else
    let parts := splitSpaces name.data
    if 2 ≤ parts.length then
      jsToUpper (String.mk ((parts.getD 0 []).take 1) ++
        String.mk ((parts.getD 1 []).take 1))
    else
      jsToUpper (String.mk (name.data.take 2))

/-- The shape of results returned by the `lib/api` helpers as the
examined components consume them: an optional error message. -/
structure ApiResult where
  error : Option String
deriving DecidableEq

/-- JS truthiness of an optional string field: present and non-empty. -/
def jsTruthyStr : Option String → Bool
  | none => false
  | some s => !(s = "")

/-- A toast notification as the components raise them. -/
structure Toast where
  destructive : Bool
  title : String
  description : String
deriving DecidableEq

/-- Embeds `handleDeleteUser` (`src/unnamed/part_001:76-101`), with the
state update and the toasts as explicit outputs and the value returned
by the awaited `deleteUser` call passed in as `result`: on a truthy
`result.error` it raises the error toast and returns before touching the
list; otherwise it keeps exactly the users whose `name` differs from
`userId` and raises the success toast. -/
def handleDeleteUser (users : List UserRow) (userId : String)
    (result : ApiResult) : List UserRow × List Toast :=
  if jsTruthyStr result.error then
    (users,
     [{ destructive := true, title := "Error",
        description := result.error.getD "Failed to delete user." }])
  else
    (users.filter (fun u => !(u.name = userId)),
     [{ destructive := false, title := "User deleted",
        description := "The user has been successfully deleted." }])

/-- The edit-user form's values (`src/unnamed/part_002:18-20`). -/
structure FormValues where
  new_password : String
deriving DecidableEq

/-- Embeds `formSchema` (`src/unnamed/part_002:18-20`): zod validation
requiring `new_password` to be at least 8 characters. -/
def formSchemaCheck (values : FormValues) : Bool :=
  8 ≤ values.new_password.length

/-- The user being edited (`src/unnamed/part_002:22-31`), restricted to
the fields the submit flow reads. -/
structure EditUser where
  name : String
  email : String
deriving DecidableEq

/-- A call made to the `updateUser` API helper: the identifier in the
resource path and the submitted payload. -/
structure UpdateCall where
  identifier : String
  payload : FormValues
deriving DecidableEq

/-- Embeds the edit-user submit flow (`src/unnamed/part_002:41-55,127`):
`form.handleSubmit(onSubmit)` with `zodResolver(formSchema)` runs the
schema check and invokes `onSubmit` only when it passes, and `onSubmit`
calls `updateUser(user.email, values)`.  Returns the `updateUser` call
made, if any. -/
def submitEditUserForm (user : EditUser) (values : FormValues) :
    Option UpdateCall :=
  if formSchemaCheck values then
    some { identifier := user.email, payload := values }
  else none

/-- The resolver denies whenever the resource-type or action tag is
unrecognized, whatever the session context. -/
theorem hasPermission_eq_false_of_parse_none (ctx : Option Session)
    (docType permission : String)
    (h : parseDocType docType = none ∨ parsePermAction permission = none) :
    hasPermission ctx docType permission = false := by
  cases ctx with
  | none => rfl
  | some s =>
    unfold hasPermission
    rcases h with h | h
    · cases ha : parsePermAction permission <;> simp [h, ha]
    · cases hd : parseDocType docType <;> simp [h, hd]

/-- C1: the Permission Resolver returns true iff the exact
(resourceType, action) pair is recognized and explicitly granted to an
authenticated session; in every other case — pair not granted, context
absent or unauthenticated, resource type or action unrecognized — it
returns false (it is a total function, so it never throws or hangs), and
granting a different pair never changes the decision. -/
theorem resolver_allows_iff_explicit_grant (ctx : Option Session)
    (docType permission : String) :
    (hasPermission ctx docType permission = true ↔
      ∃ s d a, ctx = some s ∧ s.authenticated = true ∧
        parseDocType docType = some d ∧ parsePermAction permission = some a ∧
        (d, a) ∈ s.grants) ∧
    (∀ (s : Session) (g : DocType × PermAction),
      (∀ d a, parseDocType docType = some d →
        parsePermAction permission = some a → (d, a) ≠ g) →
      hasPermission (some { s with grants := g :: s.grants }) docType permission =
        hasPermission (some s) docType permission) := by
  constructor
  · cases ctx with
    | none => simp [hasPermission]
    | some s =>
      cases hA : s.authenticated with
      | false => simp [hasPermission, hA]
      | true =>
        cases hd : parseDocType docType with
        | none => simp [hasPermission, hA, hd]
        | some d =>
          cases ha : parsePermAction permission with
          | none => simp [hasPermission, hA, hd, ha]
          | some a => simp [hasPermission, hA, hd, ha]
  · intro s g hg
    cases hd : parseDocType docType with
    | none => simp [hasPermission, hd]
    | some d =>
      cases ha : parsePermAction permission with
      | none => simp [hasPermission, hd, ha]
      | some a =>
        have hne : ¬((d, a) = g) := hg d a hd ha
        simp [hasPermission, hd, ha, List.contains_cons, hne]

/-- Witness for C1 at a concrete session: the grant {(Driver, read)}
makes the resolver allow ("Driver","read"), and adding a grant of
(Driver, write) does not change that decision. -/
theorem resolver_allows_iff_explicit_grant_witness :
    hasPermission (some ⟨"u0", true, [(DocType.driver, PermAction.read)]⟩)
      "Driver" "read" = true ∧
    hasPermission
      (some ⟨"u0", true,
        [(DocType.driver, PermAction.write), (DocType.driver, PermAction.read)]⟩)
      "Driver" "read" =
      hasPermission (some ⟨"u0", true, [(DocType.driver, PermAction.read)]⟩)
        "Driver" "read" := by
  constructor
  · exact (resolver_allows_iff_explicit_grant
      (some ⟨"u0", true, [(DocType.driver, PermAction.read)]⟩) "Driver" "read").1.mpr
      ⟨⟨"u0", true, [(DocType.driver, PermAction.read)]⟩, DocType.driver,
        PermAction.read, rfl, rfl, rfl, rfl, by decide⟩
  · exact (resolver_allows_iff_explicit_grant
      (some ⟨"u0", true, [(DocType.driver, PermAction.read)]⟩) "Driver" "read").2
      ⟨"u0", true, [(DocType.driver, PermAction.read)]⟩
      (DocType.driver, PermAction.write)
      (by
        intro d a hd ha
        simp [parseDocType] at hd
        simp [parsePermAction] at ha
        subst hd; subst ha; decide)

/-- C2: the Permission Gate renders the protected content iff the
resolver allows its configured pair; on denial it renders the supplied
fallback when there is one, a passive denial notice when the
denial-notice flag is set and there is no fallback, and nothing
otherwise. -/
theorem gate_renders_iff_allowed (ctx : Option Session)
    (docType permission : String) (hasFallback showAlert : Bool) :
    (permissionGate ctx docType permission hasFallback showAlert =
        GateRender.content ↔
      hasPermission ctx docType permission = true) ∧
    (hasPermission ctx docType permission = false →
      (hasFallback = true →
        permissionGate ctx docType permission hasFallback showAlert =
          GateRender.fallback) ∧
      (hasFallback = false → showAlert = true →
        permissionGate ctx docType permission hasFallback showAlert =
          GateRender.denialNotice) ∧
      (hasFallback = false → showAlert = false →
        permissionGate ctx docType permission hasFallback showAlert =
          GateRender.nothing)) := by
  unfold permissionGate
  cases h : hasPermission ctx docType permission <;>
    cases hasFallback <;> cases showAlert <;> simp

/-- Witness for C2: a session with no grants is denied ("User","write"),
so a gate with a supplied fallback renders the fallback. -/
theorem gate_renders_iff_allowed_witness :
    permissionGate (some ⟨"u0", true, []⟩) "User" "write" true false =
      GateRender.fallback :=
  ((gate_renders_iff_allowed (some ⟨"u0", true, []⟩) "User" "write" true false).2
    (by decide)).1 rfl

/-- C3: on one trigger, the Restricted Action runs the handler exactly
once iff the resolver allows; on denial the handler never runs, and there
is exactly one denial notification — the supplied message or the generic
default — when the alert flag is set, none when it is unset. -/
theorem restricted_action_invokes_iff_allowed (ctx : Option Session)
    (docType permission : String) (msg : Option String) (alert : Bool) :
    ((restrictedButtonTrigger ctx docType permission msg alert).handlerCalls = 1 ↔
      hasPermission ctx docType permission = true) ∧
    (hasPermission ctx docType permission = false →
      (restrictedButtonTrigger ctx docType permission msg alert).handlerCalls = 0 ∧
      (alert = true →
        (restrictedButtonTrigger ctx docType permission msg alert).notifications =
          [msg.getD defaultDenialMessage]) ∧
      (alert = false →
        (restrictedButtonTrigger ctx docType permission msg alert).notifications =
          [])) := by
  unfold restrictedButtonTrigger
  cases h : hasPermission ctx docType permission <;> cases alert <;> simp

/-- Witness for C3: a session with no grants triggering ("Driver",
"delete") with the alert flag set and no supplied message emits exactly
the default denial notification. -/
theorem restricted_action_invokes_iff_allowed_witness :
    (restrictedButtonTrigger (some ⟨"u0", true, []⟩) "Driver" "delete" none
        true).notifications = [defaultDenialMessage] :=
  (((restricted_action_invokes_iff_allowed (some ⟨"u0", true, []⟩) "Driver"
    "delete" none true).2 (by decide)).2.1 rfl)

/-- C4: with the grant set exactly {(Driver, read)}, a gate on
("Driver","read") renders the protected content, a gate on
("Driver","write") renders its supplied fallback, and triggering a
restricted action on ("Driver","delete") with the alert flag set calls
no handler and shows exactly one denial notification with the default
message. -/
theorem scenario_driver_read_only_session :
    permissionGate (some ⟨"d0", true, [(DocType.driver, PermAction.read)]⟩)
      "Driver" "read" true false = GateRender.content ∧
    permissionGate (some ⟨"d0", true, [(DocType.driver, PermAction.read)]⟩)
      "Driver" "write" true false = GateRender.fallback ∧
    restrictedButtonTrigger (some ⟨"d0", true, [(DocType.driver, PermAction.read)]⟩)
      "Driver" "delete" none true =
      { handlerCalls := 0, notifications := [defaultDenialMessage] } := by
  refine ⟨rfl, rfl, rfl⟩

/-- C5: re-evaluating the resolver with unchanged inputs yields the same
decision, and an evaluation leaves the session context it read exactly as
it found it (pure, idempotent). -/
theorem resolver_pure_idempotent (ctx : Option Session)
    (docType permission : String) :
    (resolveStep ctx docType permission).1 =
      (resolveStep (resolveStep ctx docType permission).2 docType permission).1 ∧
    (resolveStep (resolveStep ctx docType permission).2 docType permission).2 =
      ctx :=
  ⟨rfl, rfl⟩

/-- C6: the permission decisions taken while rendering a row's actions
menu are identical for any two rows — the row being acted on never enters
a permission check (only non-permission rendering, such as the
Disable/Enable label, reads the row). -/
theorem row_independent_permission_decisions (ctx : Option Session) :
    (∀ r1 r2 : UserRow,
      (userRowMenuDecisions ctx r1).1 = (userRowMenuDecisions ctx r2).1 ∧
      (userRowMenuDecisions ctx r1).2.1 = (userRowMenuDecisions ctx r2).2.1) ∧
    (∀ r1 r2 : DriverRow,
      (driverRowMenuDecisions ctx r1).1 = (driverRowMenuDecisions ctx r2).1 ∧
      (driverRowMenuDecisions ctx r1).2.1 = (driverRowMenuDecisions ctx r2).2.1) :=
  ⟨fun _ _ => ⟨rfl, rfl⟩, fun _ _ => ⟨rfl, rfl⟩⟩

/-- C7: a trigger's only caller-observable outcomes are "handler
invoked" (once) or "handler not invoked" — the outcome type carries no
error alternative and the functions are total, so denial is never
re-thrown — and an unrecognized resource type or action produces exactly
the outcome of an ungranted pair (the same denial class), for both the
Restricted Action and the Gate. -/
theorem denial_handled_locally (ctx : Option Session)
    (docType permission : String) (msg : Option String)
    (alert hasFallback gateAlert : Bool) :
    ((restrictedButtonTrigger ctx docType permission msg alert).handlerCalls = 0 ∨
      (restrictedButtonTrigger ctx docType permission msg alert).handlerCalls = 1) ∧
    (parseDocType docType = none ∨ parsePermAction permission = none →
      restrictedButtonTrigger ctx docType permission msg alert =
        restrictedButtonTrigger (some ⟨"", true, []⟩) docType permission msg alert ∧
      permissionGate ctx docType permission hasFallback gateAlert =
        permissionGate (some ⟨"", true, []⟩) docType permission hasFallback
          gateAlert) := by
  constructor
  · unfold restrictedButtonTrigger
    cases h : hasPermission ctx docType permission <;> cases alert <;> simp
  · intro h
    have h1 := hasPermission_eq_false_of_parse_none ctx docType permission h
    have h2 := hasPermission_eq_false_of_parse_none (some ⟨"", true, []⟩)
      docType permission h
    constructor
    · unfold restrictedButtonTrigger
      rw [h1, h2]
    · unfold permissionGate
      rw [h1, h2]

/-- Witness for C7: a session that holds a (User, read) grant gets, for
the unrecognized resource type "Unknown", exactly the same trigger
outcome as a session with no grants at all. -/
theorem denial_handled_locally_witness :
    restrictedButtonTrigger (some ⟨"u0", true, [(DocType.user, PermAction.read)]⟩)
      "Unknown" "read" none true =
      restrictedButtonTrigger (some ⟨"", true, []⟩) "Unknown" "read" none true :=
  ((denial_handled_locally (some ⟨"u0", true, [(DocType.user, PermAction.read)]⟩)
    "Unknown" "read" none true false false).2 (Or.inl (by decide))).1

/-- C8 counterexample: at the input "John " (trailing space) the code
returns "JUNDEFINED" — the empty second fragment makes `parts[1][0]`
undefined and the template literal interpolates the text "undefined" —
whereas the claim's reading (the uppercased concatenation of the first
characters of the first two fragments) gives "J". -/
theorem getInitials_claim_counterexample :
    getInitials "John " = "JUNDEFINED" ∧
    getInitialsClaimed "John " = "J" ∧
    getInitials "John " ≠ getInitialsClaimed "John " := by
  refine ⟨by decide, by decide, by decide⟩

/-- C8 (amended): getInitials returns "U" on the empty string; when the
input splits on single spaces into at least two fragments it returns the
uppercase of the interpolation of the two fragments' first characters,
where an empty fragment (from a leading, trailing or doubled space)
contributes the literal text "undefined"; otherwise it returns the
uppercase of the input's first two characters. -/
theorem getInitials_amended (name : String) :
    (name = "" → getInitials name = "U") ∧
    (∀ p1 p2 rest, name ≠ "" → splitSpaces name.data = p1 :: p2 :: rest →
      getInitials name =
        jsToUpper (jsInterpChar p1.head? ++ jsInterpChar p2.head?)) ∧
    (∀ p1, name ≠ "" → splitSpaces name.data = [p1] →
      getInitials name = jsToUpper (String.mk (name.data.take 2))) := by
  refine ⟨fun h => by simp [getInitials, h], ?_, ?_⟩
  · intro p1 p2 rest hne hsplit
    simp [getInitials, hne, hsplit, Nat.le_add_left]
  · intro p1 hne hsplit
    simp [getInitials, hne, hsplit]

/-- Witness for C8: "John Doe" yields "JD". -/
theorem getInitials_amended_witness : getInitials "John Doe" = "JD" :=
  ((getInitials_amended "John Doe").2.1 ['J', 'o', 'h', 'n'] ['D', 'o', 'e'] []
    (by decide) (by decide)).trans (by decide)

/-- C9: when the deleteUser result carries a (truthy) error,
handleDeleteUser leaves the users list unchanged; on a non-error result
it removes exactly the entries whose `name` equals the given id and
preserves all others. -/
theorem handleDeleteUser_error_preserves_list (users : List UserRow)
    (userId : String) (result : ApiResult) :
    (jsTruthyStr result.error = true →
      (handleDeleteUser users userId result).1 = users) ∧
    (jsTruthyStr result.error = false →
      (handleDeleteUser users userId result).1 =
        users.filter (fun u => !(u.name = userId)) ∧
      ∀ u ∈ users,
        (u ∈ (handleDeleteUser users userId result).1 ↔ u.name ≠ userId)) := by
  constructor
  · intro h
    simp [handleDeleteUser, h]
  · intro h
    refine ⟨by simp [handleDeleteUser, h], ?_⟩
    intro u hu
    simp [handleDeleteUser, h, List.mem_filter, hu]

/-- Witness for C9: with two users, an error result leaves both in
place, and a success result for id "a" removes exactly the user named
"a". -/
theorem handleDeleteUser_error_preserves_list_witness :
    (handleDeleteUser [⟨"a", "a@x", 1⟩, ⟨"b", "b@x", 1⟩] "a"
        ⟨some "boom"⟩).1 = [⟨"a", "a@x", 1⟩, ⟨"b", "b@x", 1⟩] ∧
    (handleDeleteUser [⟨"a", "a@x", 1⟩, ⟨"b", "b@x", 1⟩] "a" ⟨none⟩).1 =
      [⟨"b", "b@x", 1⟩] := by
  constructor
  · exact (handleDeleteUser_error_preserves_list
      [⟨"a", "a@x", 1⟩, ⟨"b", "b@x", 1⟩] "a" ⟨some "boom"⟩).1 (by decide)
  · exact (((handleDeleteUser_error_preserves_list
      [⟨"a", "a@x", 1⟩, ⟨"b", "b@x", 1⟩] "a" ⟨none⟩).2 rfl).1).trans (by decide)

/-- C10: a submitted new_password shorter than 8 characters fails schema
validation, so the submit handler — and hence updateUser — never runs;
any updateUser call that is made carries a password of at least 8
characters and uses the user's email as the identifier, with the
submitted values as payload. -/
theorem editUserForm_password_validation (user : EditUser)
    (values : FormValues) :
    (values.new_password.length < 8 → submitEditUserForm user values = none) ∧
    (∀ call, submitEditUserForm user values = some call →
      8 ≤ call.payload.new_password.length ∧ call.identifier = user.email ∧
      call.payload = values) := by
  constructor
  · intro h
    have hc : formSchemaCheck values = false := by
      simp only [formSchemaCheck, decide_eq_false_iff_not, not_le]
      exact h
    simp [submitEditUserForm, hc]
  · intro call h
    unfold submitEditUserForm at h
    by_cases hc : formSchemaCheck values
    · rw [if_pos hc] at h
      cases h
      have h8 : 8 ≤ values.new_password.length := by
        simpa [formSchemaCheck] using hc
      exact ⟨h8, rfl, rfl⟩
    · rw [if_neg hc] at h
      exact absurd h (by simp)

/-- Witness for C10: a 5-character password is rejected before any
updateUser call, and a 10-character password yields a call identified by
the user's email with the submitted payload. -/
theorem editUserForm_password_validation_witness :
    submitEditUserForm ⟨"u-name", "u@x.com"⟩ ⟨"short"⟩ = none ∧
    8 ≤ (UpdateCall.payload ⟨"u@x.com", ⟨"longenough"⟩⟩).new_password.length ∧
    UpdateCall.identifier ⟨"u@x.com", ⟨"longenough"⟩⟩ = "u@x.com" := by
  have h2 := (editUserForm_password_validation ⟨"u-name", "u@x.com"⟩
    ⟨"longenough"⟩).2 ⟨"u@x.com", ⟨"longenough"⟩⟩ (by decide)
  exact ⟨(editUserForm_password_validation ⟨"u-name", "u@x.com"⟩ ⟨"short"⟩).1
    (by decide), h2.1, h2.2.1⟩

end LogixFleet
